import Mathlib

/-!
Verification of the inter-service communication layer of the LMS backend
(`backend/shared/http_client.py` and `backend/shared/event_handler.py`):
the circuit breaker, the retrying HTTP client, the service registry and
the in-process event dispatcher.

The Python classes are shallowly embedded as Lean structures; mutating
methods become pure functions from the old state (plus the current wall
clock, passed explicitly since the Python reads `datetime.utcnow()`) to
the new state.  Wall-clock instants are modelled as integers; only their
differences are ever compared against `recovery_timeout`.  The network of
`_make_request` is modelled as an environment function giving the outcome
of each attempt index, and the method's observable behaviour is collected
in a trace (number of attempts, backoff sleeps, result, circuit-breaker
reports).
-/

namespace LMS

/-- The three circuit-breaker states, the string tags
`"CLOSED" / "OPEN" / "HALF_OPEN"` of `http_client.py`. -/
inductive BreakerState where
  | CLOSED
  | OPEN
  | HALF_OPEN
deriving DecidableEq

/-- State of `CircuitBreaker` (`http_client.py` lines 31-66):
`failure_threshold` and `recovery_timeout` are set at construction,
`failure_count` starts at 0, `last_failure_time` at `None`, `state` at
CLOSED. -/
structure CircuitBreaker where
  failure_threshold : Nat
  recovery_timeout : Nat
  failure_count : Nat
  last_failure_time : Option Int
  state : BreakerState
deriving DecidableEq

namespace CircuitBreaker

/-- Constructor `CircuitBreaker.__init__(failure_threshold, recovery_timeout)`. -/
def init (failure_threshold recovery_timeout : Nat) : CircuitBreaker :=
  { failure_threshold := failure_threshold
    recovery_timeout := recovery_timeout
    failure_count := 0
    last_failure_time := none
    state := .CLOSED }

/-- Method `CircuitBreaker.can_execute` (lines 41-53).  Returns the boolean the
Python returns together with the (possibly mutated) breaker: in state
OPEN, when `last_failure_time` is set and `now - last_failure_time >
recovery_timeout`, the state flips to HALF_OPEN and the call returns
true. -/
def can_execute (now : Int) (cb : CircuitBreaker) : Bool × CircuitBreaker :=
  match cb.state with
  | .CLOSED => (true, cb)
  | .OPEN =>
    match cb.last_failure_time with
    | some t =>
      if now - t > (cb.recovery_timeout : Int) then
        (true, { cb with state := .HALF_OPEN })
      else
        (false, cb)
    | none => (false, cb)
  | .HALF_OPEN => (true, cb)

/-- Method `CircuitBreaker.on_success` (lines 55-58): reset `failure_count` to 0
and set the state to CLOSED; nothing else is touched. -/
def on_success (cb : CircuitBreaker) : CircuitBreaker :=
  { cb with failure_count := 0, state := .CLOSED }

/-- Method `CircuitBreaker.on_failure` (lines 60-66): increment `failure_count`,
record `last_failure_time := now`, and set the state to OPEN when the new
count has reached `failure_threshold`. -/
def on_failure (now : Int) (cb : CircuitBreaker) : CircuitBreaker :=
  let cb2 := { cb with
    failure_count := cb.failure_count + 1
    last_failure_time := some now }
  if cb2.failure_count ≥ cb2.failure_threshold then
    { cb2 with state := .OPEN }
  else
    cb2

/-- One call of the breaker's public interface, with the wall-clock
instant at which it happens. -/
inductive Op where
  | success
  | failure (now : Int)
  | check (now : Int)

/-- Apply one interface call to a breaker, discarding `can_execute`'s
boolean result. -/
def applyOp (cb : CircuitBreaker) : Op → CircuitBreaker
  | .success => cb.on_success
  | .failure now => cb.on_failure now
  | .check now => (cb.can_execute now).2

/-- Run a sequence of interface calls from a starting breaker. -/
def runOps (cb : CircuitBreaker) (ops : List Op) : CircuitBreaker :=
  ops.foldl applyOp cb

/-- A breaker state is reachable when some sequence of `on_success`,
`on_failure` and `can_execute` calls produces it from a freshly
constructed breaker. -/
def Reachable (cb : CircuitBreaker) : Prop :=
  ∃ threshold recovery : Nat, ∃ ops : List Op,
    cb = runOps (init threshold recovery) ops

/-- Invariant carried through every interface call: in the OPEN and
HALF_OPEN states the failure count has reached the threshold and a last
failure time is recorded. -/
def Inv (cb : CircuitBreaker) : Prop :=
  (cb.state = .OPEN ∨ cb.state = .HALF_OPEN) →
    cb.failure_threshold ≤ cb.failure_count ∧ cb.last_failure_time ≠ none

end CircuitBreaker

/-- The outcome the network produces for one attempt of
`ServiceHTTPClient._make_request`, mirroring the exception taxonomy of
`http_client.py` lines 123-163: a 2xx response whose JSON body decodes
(`success`), a `ClientResponseError` with its status and message
(`respError`), a `ClientConnectorError`/`ServerTimeoutError`
(`connError`), or any other `ClientError` (`clientError`). -/
inductive AttemptOutcome where
  | success (body : String)
  | respError (status : Nat) (message : String)
  | connError
  | clientError

/-- An attempt outcome the retry loop treats as retryable: a response
with status ≥ 500, or a connection-level failure. -/
def retryableFailure : AttemptOutcome → Prop
  | .respError status _ => 500 ≤ status
  | .connError => True
  | _ => False

/-- Errors `_make_request` raises to its caller:
`ServiceUnavailableError` with its message, or the re-raised
`ClientResponseError` (status and detail preserved). -/
inductive RequestError where
  | serviceUnavailable (message : String)
  | clientResponseError (status : Nat) (message : String)
deriving DecidableEq

/-- Observable behaviour of one `_make_request` call: how many network
attempts were made, the backoff sleeps in order, the returned value or
raised error, how many times `on_success`/`on_failure` were reported to
the circuit breaker, and the breaker's final state. -/
structure RequestTrace where
  attempts : Nat
  delays : List ℚ
  result : Except RequestError String
  successReports : Nat
  failureReports : Nat
  breaker : CircuitBreaker

/-- State of `ServiceHTTPClient` (`http_client.py` lines 69-85). -/
structure ServiceHTTPClient where
  base_url : String
  timeout : Nat
  max_retries : Nat
  retry_delay : ℚ
  circuit_breaker : CircuitBreaker

/-- Python's `str.rstrip('/')`: remove all trailing slash characters. -/
def rstripSlash (s : String) : String :=
  String.mk ((s.data.reverse.dropWhile (fun c => c = '/')).reverse)

namespace ServiceHTTPClient

/-- Constructor `ServiceHTTPClient.__init__(base_url)` with the constructor defaults
of lines 72-84: `timeout=30`, `max_retries=3`, `retry_delay=1.0`, a fresh
default `CircuitBreaker()` (threshold 5, recovery 60); the base URL is
stored with trailing slashes stripped. -/
def init (base_url : String) : ServiceHTTPClient :=
  { base_url := rstripSlash base_url
    timeout := 30
    max_retries := 3
    retry_delay := 1
    circuit_breaker := CircuitBreaker.init 5 60 }

/-- The `for attempt in range(self.max_retries + 1)` loop of
`_make_request` (lines 123-163), recursing on the number of attempts
still available after the current one (`remaining = max_retries -
attempt`).  Each failed attempt reports `on_failure`; a 5xx response or
connection failure retries after sleeping `retry_delay * 2 ^ attempt`
when attempts remain and otherwise raises `ServiceUnavailableError`; a
non-5xx `ClientResponseError` is re-raised as is; any other
`ClientError` raises `ServiceUnavailableError` without retrying. -/
def requestLoop (now : Int) (base_url : String) (retry_delay : ℚ)
    (outcomes : Nat → AttemptOutcome) :
    Nat → Nat → CircuitBreaker → RequestTrace
  | attempt, remaining, cb =>
    match outcomes attempt with
    | .success body =>
      { attempts := 1, delays := [], result := .ok body
        successReports := 1, failureReports := 0, breaker := cb.on_success }
    | .respError status message =>
      let cb2 := cb.on_failure now
      if 500 ≤ status then
        match remaining with
        | r + 1 =>
          let t := requestLoop now base_url retry_delay outcomes (attempt + 1) r cb2
          { attempts := t.attempts + 1
            delays := retry_delay * 2 ^ attempt :: t.delays
            result := t.result
            successReports := t.successReports
            failureReports := t.failureReports + 1
            breaker := t.breaker }
        | 0 =>
          { attempts := 1, delays := []
            result := .error (.serviceUnavailable
              ("Service " ++ base_url ++ " returned " ++ toString status))
            successReports := 0, failureReports := 1, breaker := cb2 }
      else
        { attempts := 1, delays := []
          result := .error (.clientResponseError status message)
          successReports := 0, failureReports := 1, breaker := cb2 }
    | .connError =>
      let cb2 := cb.on_failure now
      match remaining with
      | r + 1 =>
        let t := requestLoop now base_url retry_delay outcomes (attempt + 1) r cb2
        { attempts := t.attempts + 1
          delays := retry_delay * 2 ^ attempt :: t.delays
          result := t.result
          successReports := t.successReports
          failureReports := t.failureReports + 1
          breaker := t.breaker }
      | 0 =>
        { attempts := 1, delays := []
          result := .error (.serviceUnavailable
            ("Service " ++ base_url ++ " is unreachable"))
          successReports := 0, failureReports := 1, breaker := cb2 }
    | .clientError =>
      { attempts := 1, delays := []
        result := .error (.serviceUnavailable
          ("Service " ++ base_url ++ " communication failed"))
        successReports := 0, failureReports := 1, breaker := cb.on_failure now }

/-- Method `ServiceHTTPClient._make_request` (lines 102-163): first consult the
circuit breaker — on denial raise `ServiceUnavailableError` with no
attempt made and nothing reported — otherwise run the retry loop starting
at attempt 0 with `max_retries` further attempts available. -/
def make_request (c : ServiceHTTPClient) (now : Int)
    (outcomes : Nat → AttemptOutcome) : RequestTrace :=
  let p := c.circuit_breaker.can_execute now
  if p.1 then
    requestLoop now c.base_url c.retry_delay outcomes 0 c.max_retries p.2
  else
    { attempts := 0, delays := []
      result := .error (.serviceUnavailable
        ("Service " ++ c.base_url ++ " is unavailable"))
      successReports := 0, failureReports := 0, breaker := p.2 }

end ServiceHTTPClient

/-- The error `ServiceRegistry.get_client`/`get_service_url` raise for an
unregistered name (`ValueError` in `http_client.py` lines 200-201). -/
inductive RegistryError where
  | notRegistered (service_name : String)
deriving DecidableEq

/-- State of `ServiceRegistry` (`http_client.py` lines 186-208): two dictionaries
keyed by service name, one holding the registered base URL and one the
client constructed from it. -/
structure ServiceRegistry where
  services : String → Option String
  clients : String → Option ServiceHTTPClient

namespace ServiceRegistry

/-- Constructor `ServiceRegistry.__init__`: both dictionaries empty. -/
def init : ServiceRegistry :=
  { services := fun _ => none, clients := fun _ => none }

/-- Method `ServiceRegistry.register_service` (lines 193-196): store the URL and
a fresh `ServiceHTTPClient(base_url)` under the name, overwriting any
previous entry. -/
def register_service (r : ServiceRegistry) (name base_url : String) :
    ServiceRegistry :=
  { services := fun n => if n = name then some base_url else r.services n
    clients := fun n =>
      if n = name then some (ServiceHTTPClient.init base_url) else r.clients n }

/-- Method `ServiceRegistry.get_client` (lines 198-202): the stored client, or a
`NotRegistered` error when the name was never registered. -/
def get_client (r : ServiceRegistry) (service_name : String) :
    Except RegistryError ServiceHTTPClient :=
  match r.clients service_name with
  | some c => .ok c
  | none => .error (.notRegistered service_name)

/-- Method `ServiceRegistry.get_service_url` (lines 204-208): the stored URL, or
a `NotRegistered` error when the name was never registered. -/
def get_service_url (r : ServiceRegistry) (service_name : String) :
    Except RegistryError String :=
  match r.services service_name with
  | some u => .ok u
  | none => .error (.notRegistered service_name)

/-- A registry built by a sequence of `register_service` calls on a fresh
registry — the only way registries are populated in the source. -/
def ofRegistrations (regs : List (String × String)) : ServiceRegistry :=
  regs.foldl (fun r p => r.register_service p.1 p.2) init

end ServiceRegistry

/-- The registrations performed at import time by `register_services()`
(`http_client.py` lines 215-227). -/
def lmsRegistrations : List (String × String) :=
  [("user", "http://localhost:8006"),
   ("course", "http://localhost:8000"),
   ("enrollment", "http://localhost:8002"),
   ("assessment", "http://localhost:8003"),
   ("progress", "http://localhost:8004"),
   ("communication", "http://localhost:8005")]

/-- The closed `EventType` enumeration of `event_handler.py` lines 17-34. -/
inductive EventType where
  | USER_CREATED
  | USER_UPDATED
  | USER_DELETED
  | COURSE_CREATED
  | COURSE_UPDATED
  | COURSE_DELETED
  | ENROLLMENT_CREATED
  | ENROLLMENT_UPDATED
  | ENROLLMENT_COMPLETED
  | ASSESSMENT_CREATED
  | ASSESSMENT_SUBMITTED
  | ASSESSMENT_GRADED
  | PROGRESS_UPDATED
  | PROGRESS_COMPLETED
  | NOTIFICATION_CREATED
  | MESSAGE_SENT
deriving DecidableEq

/-- The `Event` envelope (`event_handler.py` lines 37-52).  The `data`
payload is opaque to the dispatcher (a `Dict[str, Any]` it never
inspects), modelled as a string. -/
structure Event where
  event_type : EventType
  data : String
  source_service : String
  event_id : String
  timestamp : Int
deriving DecidableEq

/-- A subscribed handler: an identity (handlers are compared and traced
by identity in Python) and the effect of awaiting it on an event, which
either returns or raises. -/
structure Handler where
  id : Nat
  run : Event → Except String Unit

/-- State of `EventHandler` (`event_handler.py` lines 76-83): the
subscriber dictionary (a missing key reads as the empty list, exactly the
`if event_type not in self.subscribers` guards), the bounded history, and
`max_history = 1000`. -/
structure EventHandler where
  service_name : String
  subscribers : EventType → List Handler
  event_history : List Event
  max_history : Nat

/-- The `try: await handler(event) / except Exception: logger.error(...)`
loop body of `publish` (lines 104-109): every handler in the list is
invoked in order and its identity recorded; an error raised by a handler
is caught and swallowed, so the remaining handlers still run and nothing
propagates. -/
def runHandlers (e : Event) : List Handler → List Nat
  | [] => []
  | hd :: rest =>
    match hd.run e with
    | .ok _ => hd.id :: runHandlers e rest
    | .error _ => hd.id :: runHandlers e rest

/-- The history update of `publish` (lines 100-102): append the event,
then pop the oldest entry when the length exceeds `max_history`. -/
def pushHistory (max_history : Nat) (history : List Event) (e : Event) :
    List Event :=
  let h2 := history ++ [e]
  if h2.length > max_history then h2.drop 1 else h2

namespace EventHandler

/-- Constructor `EventHandler.__init__(service_name)`. -/
def init (service_name : String) : EventHandler :=
  { service_name := service_name
    subscribers := fun _ => []
    event_history := []
    max_history := 1000 }

/-- Method `EventHandler.subscribe` (lines 85-90): append the handler to the
list for its event type (creating the list when absent). -/
def subscribe (h : EventHandler) (event_type : EventType) (hd : Handler) :
    EventHandler :=
  { h with subscribers := fun t =>
      if t = event_type then h.subscribers t ++ [hd] else h.subscribers t }

/-- Method `EventHandler.publish` (lines 98-111): push the event onto the
bounded history, then invoke every handler subscribed to its type.  The
returned list is the trace of handler identities invoked; the function is
total — no handler error escapes. -/
def publish (h : EventHandler) (e : Event) : EventHandler × List Nat :=
  ({ h with event_history := pushHistory h.max_history h.event_history e },
   runHandlers e (h.subscribers e.event_type))

/-- A sequence of `publish` calls. -/
def publishAll (h : EventHandler) (events : List Event) : EventHandler :=
  events.foldl (fun h2 e => (h2.publish e).1) h

/-- Method `EventHandler.get_event_history` with no filter (lines 128-132):
a copy of the history. -/
def get_event_history (h : EventHandler) : List Event :=
  h.event_history

/-- Method `EventHandler.get_event_history` with an `event_type` filter. -/
def get_event_history_of (h : EventHandler) (event_type : EventType) :
    List Event :=
  h.event_history.filter (fun e => decide (e.event_type = event_type))

end EventHandler

/-- A stream of pairwise distinct events (distinct `event_id`s and
timestamps), used to exercise the history bound on concrete input. -/
def sampleEvent (i : Nat) : Event :=
  { event_type := .USER_CREATED
    data := ""
    source_service := "user"
    event_id := toString i
    timestamp := (i : Int) }

/-! ## Circuit-breaker lemmas -/

namespace CircuitBreaker

theorem inv_init (threshold recovery : Nat) : Inv (init threshold recovery) := by
  intro h
  rcases h with h | h <;> simp [init] at h

theorem inv_on_success (cb : CircuitBreaker) : Inv cb.on_success := by
  intro h
  rcases h with h | h <;> simp [on_success] at h

theorem inv_on_failure (cb : CircuitBreaker) (now : Int) (hcb : Inv cb) :
    Inv (cb.on_failure now) := by
  unfold on_failure
  dsimp only
  split
  case isTrue h =>
    intro _
    exact ⟨h, by simp⟩
  case isFalse h =>
    intro hst
    refine ⟨?_, by simp⟩
    have : cb.state = .OPEN ∨ cb.state = .HALF_OPEN := hst
    exact le_trans (hcb this).1 (Nat.le_succ _)

theorem inv_can_execute (cb : CircuitBreaker) (now : Int) (hcb : Inv cb) :
    Inv (cb.can_execute now).2 := by
  unfold can_execute
  rcases hs : cb.state with _ | _ | _
  · intro h
    rcases h with h | h <;> simp_all
  · rcases ht : cb.last_failure_time with _ | t
    · intro h
      rcases hcb (Or.inl hs) with ⟨h1, h2⟩
      exact absurd ht h2
    · dsimp only
      split
      · intro _
        rcases hcb (Or.inl hs) with ⟨h1, h2⟩
        exact ⟨h1, by simp⟩
      · intro _
        exact hcb (Or.inl hs)
  · intro _
    exact hcb (Or.inr hs)

theorem inv_applyOp (cb : CircuitBreaker) (op : Op) (hcb : Inv cb) :
    Inv (cb.applyOp op) := by
  cases op with
  | success => exact inv_on_success cb
  | failure now => exact inv_on_failure cb now hcb
  | check now => exact inv_can_execute cb now hcb

theorem inv_runOps (cb : CircuitBreaker) (ops : List Op) (hcb : Inv cb) :
    Inv (runOps cb ops) := by
  induction ops generalizing cb with
  | nil => exact hcb
  | cons op rest ih => exact ih _ (inv_applyOp cb op hcb)

theorem inv_reachable (cb : CircuitBreaker) (hcb : Reachable cb) : Inv cb := by
  obtain ⟨threshold, recovery, ops, rfl⟩ := hcb
  exact inv_runOps _ ops (inv_init threshold recovery)

/-- When the failure count has already reached the threshold, `on_failure`
unconditionally produces the OPEN state. -/
theorem on_failure_eq_of_le (cb : CircuitBreaker) (now : Int)
    (h : cb.failure_threshold ≤ cb.failure_count) :
    cb.on_failure now =
      { cb with
        failure_count := cb.failure_count + 1
        last_failure_time := some now
        state := .OPEN } := by
  unfold on_failure
  dsimp only
  rw [if_pos (le_trans h (Nat.le_succ _))]

/-- When `can_execute` returns false it has not mutated the breaker. -/
theorem can_execute_false_eq (cb : CircuitBreaker) (now : Int)
    (h : (cb.can_execute now).1 = false) : (cb.can_execute now).2 = cb := by
  unfold can_execute at *
  rcases hs : cb.state with _ | _ | _ <;> simp [hs] at h ⊢
  rcases ht : cb.last_failure_time with _ | t <;> simp [ht] at h ⊢
  split <;> simp_all

/-- Method `can_execute` never changes the failure count. -/
theorem can_execute_failure_count (cb : CircuitBreaker) (now : Int) :
    (cb.can_execute now).2.failure_count = cb.failure_count := by
  unfold can_execute
  rcases cb.state with _ | _ | _ <;> try rfl
  rcases cb.last_failure_time with _ | t
  · rfl
  · dsimp only
    split <;> rfl

/-- Method `on_failure` always increments the failure count by one. -/
theorem on_failure_failure_count (cb : CircuitBreaker) (now : Int) :
    (cb.on_failure now).failure_count = cb.failure_count + 1 := by
  unfold on_failure
  dsimp only
  split <;> rfl

end CircuitBreaker

/-! ## Service-client lemmas -/

namespace ServiceHTTPClient

/-- When every attempt's outcome is a retryable failure (5xx or
connection-level), the retry loop performs one attempt per unit of its
budget, sleeps `retry_delay * 2 ^ n` after the attempt with index `n`
whenever a retry follows, reports every failure to the breaker, and ends
in `ServiceUnavailableError`. -/
theorem requestLoop_all_retryable (now : Int) (base_url : String)
    (retry_delay : ℚ) (outcomes : Nat → AttemptOutcome)
    (hfail : ∀ i, retryableFailure (outcomes i)) :
    ∀ remaining attempt cb,
      (requestLoop now base_url retry_delay outcomes attempt remaining
          cb).attempts = remaining + 1 ∧
      (requestLoop now base_url retry_delay outcomes attempt remaining
          cb).delays =
        (List.range remaining).map (fun j => retry_delay * 2 ^ (attempt + j)) ∧
      (requestLoop now base_url retry_delay outcomes attempt remaining
          cb).failureReports = remaining + 1 ∧
      ∃ msg, (requestLoop now base_url retry_delay outcomes attempt remaining
          cb).result = .error (.serviceUnavailable msg) := by
  intro remaining
  induction remaining with
  | zero =>
    intro attempt cb
    have h := hfail attempt
    unfold requestLoop
    cases ho : outcomes attempt with
    | success body => rw [ho] at h; exact absurd h (by simp [retryableFailure])
    | respError status message =>
      rw [ho] at h
      have h5 : 500 ≤ status := h
      dsimp only
      rw [if_pos h5]
      exact ⟨rfl, rfl, rfl, _, rfl⟩
    | connError =>
      exact ⟨rfl, rfl, rfl, _, rfl⟩
    | clientError => rw [ho] at h; exact absurd h (by simp [retryableFailure])
  | succ r ih =>
    intro attempt cb
    have h := hfail attempt
    unfold requestLoop
    cases ho : outcomes attempt with
    | success body => rw [ho] at h; exact absurd h (by simp [retryableFailure])
    | respError status message =>
      rw [ho] at h
      have h5 : 500 ≤ status := h
      dsimp only
      rw [if_pos h5]
      obtain ⟨h1, h2, h3, msg, h4⟩ := ih (attempt + 1) (cb.on_failure now)
      refine ⟨by rw [h1], ?_, by rw [h3], msg, h4⟩
      rw [h2, List.range_succ_eq_map, List.map_cons, List.map_map]
      refine congrArg₂ _ (by rw [Nat.add_zero]) ?_
      refine List.map_congr_left fun j _ => ?_
      have hj : attempt + 1 + j = attempt + (j + 1) := by omega
      simp [Function.comp, hj]
    | connError =>
      dsimp only
      obtain ⟨h1, h2, h3, msg, h4⟩ := ih (attempt + 1) (cb.on_failure now)
      refine ⟨by rw [h1], ?_, by rw [h3], msg, h4⟩
      rw [h2, List.range_succ_eq_map, List.map_cons, List.map_map]
      refine congrArg₂ _ (by rw [Nat.add_zero]) ?_
      refine List.map_congr_left fun j _ => ?_
      have hj : attempt + 1 + j = attempt + (j + 1) := by omega
      simp [Function.comp, hj]
    | clientError => rw [ho] at h; exact absurd h (by simp [retryableFailure])

end ServiceHTTPClient

/-! ## Dispatcher and registry lemmas -/

/-- The handler loop invokes every handler in the list, in order, by
identity — whether or not any of them raises. -/
theorem runHandlers_eq_map (e : Event) (hs : List Handler) :
    runHandlers e hs = hs.map Handler.id := by
  induction hs with
  | nil => rfl
  | cons hd rest ih =>
    unfold runHandlers
    cases hd.run e <;> simp [ih]

/-- Folding `pushHistory` over a sequence of events keeps exactly the
most recent `cap` elements of the concatenation, provided the starting
history is within capacity. -/
theorem foldl_pushHistory (cap : Nat) (hcap : 1 ≤ cap)
    (events : List Event) :
    ∀ hist : List Event, hist.length ≤ cap →
      events.foldl (pushHistory cap) hist =
        (hist ++ events).drop (hist.length + events.length - cap) := by
  induction events with
  | nil =>
    intro hist hle
    simp [Nat.sub_eq_zero_of_le hle]
  | cons e rest ih =>
    intro hist hle
    rw [List.foldl_cons]
    rcases Nat.lt_or_ge hist.length cap with hlt | hge
    · have hpush : pushHistory cap hist e = hist ++ [e] := by
        unfold pushHistory
        dsimp only
        rw [if_neg (by
          simp only [List.length_append, List.length_singleton, List.length_nil]
          omega)]
      rw [hpush, ih (hist ++ [e]) (by
        simp only [List.length_append, List.length_singleton, List.length_nil]
        omega)]
      have hamount : (hist ++ [e]).length + rest.length - cap
          = hist.length + (e :: rest).length - cap := by
        simp only [List.length_append, List.length_singleton, List.length_cons, List.length_nil]
        omega
      rw [hamount, List.append_assoc, List.singleton_append]
    · have heq : hist.length = cap := le_antisymm hle hge
      have hpush : pushHistory cap hist e = (hist ++ [e]).drop 1 := by
        unfold pushHistory
        dsimp only
        rw [if_pos (by
          simp only [List.length_append, List.length_singleton, List.length_nil]
          omega)]
      rw [hpush, ih _ (by
        simp only [List.length_drop, List.length_append, List.length_singleton, List.length_nil]
        omega)]
      have hlen1 : ((hist ++ [e]).drop 1).length + rest.length - cap
          = rest.length := by
        simp only [List.length_drop, List.length_append, List.length_singleton, List.length_nil]
        omega
      rw [hlen1]
      rw [← List.drop_append_of_le_length (by
        simp only [List.length_append, List.length_singleton, List.length_nil]
        omega), List.drop_drop]
      have hamount : 1 + rest.length = hist.length + (e :: rest).length - cap := by
        simp only [List.length_cons, List.length_nil]
        omega
      rw [hamount, List.append_assoc, List.singleton_append]

namespace EventHandler

/-- Method `publish` leaves `max_history` unchanged, so `publishAll` folds
`pushHistory` at the dispatcher's fixed capacity over its history. -/
theorem publishAll_history (h : EventHandler) (events : List Event) :
    (h.publishAll events).event_history =
      events.foldl (pushHistory h.max_history) h.event_history := by
  induction events generalizing h with
  | nil => rfl
  | cons e rest ih =>
    have hstep : h.publishAll (e :: rest) = ((h.publish e).1).publishAll rest :=
      rfl
    rw [hstep, ih]
    rfl

end EventHandler

namespace ServiceRegistry

/-- A name absent from every registration stays absent from the clients
dictionary. -/
theorem foldl_clients_none (regs : List (String × String)) (name : String) :
    ∀ r : ServiceRegistry, r.clients name = none →
      name ∉ regs.map Prod.fst →
      ((regs.foldl (fun r2 p => r2.register_service p.1 p.2) r).clients name)
        = none := by
  induction regs with
  | nil =>
    intro r h _
    exact h
  | cons p rest ih =>
    intro r h hmem
    simp only [List.map_cons, List.mem_cons, not_or] at hmem
    rw [List.foldl_cons]
    refine ih _ ?_ hmem.2
    unfold register_service
    dsimp only
    rw [if_neg hmem.1]
    exact h

end ServiceRegistry

/-! ## Claim theorems: service client -/

/-- C3: when the circuit breaker permits execution and every attempt
fails with a 5xx-class response or a connection-level failure, the call
makes exactly `max_retries + 1` attempts, the delay before the retry
following attempt index `n` is `retry_delay * 2 ^ n` (n starting at 0),
and the call fails with `ServiceUnavailableError`. -/
theorem claim_C3_retry_exhaustion (c : ServiceHTTPClient) (now : Int)
    (outcomes : Nat → AttemptOutcome)
    (hallow : (c.circuit_breaker.can_execute now).1 = true)
    (hfail : ∀ i, retryableFailure (outcomes i)) :
    (c.make_request now outcomes).attempts = c.max_retries + 1 ∧
    (c.make_request now outcomes).delays =
      (List.range c.max_retries).map (fun n => c.retry_delay * 2 ^ n) ∧
    ∃ msg, (c.make_request now outcomes).result =
      .error (.serviceUnavailable msg) := by
  unfold ServiceHTTPClient.make_request
  simp only [hallow, if_true]
  obtain ⟨h1, h2, h3, msg, h4⟩ :=
    ServiceHTTPClient.requestLoop_all_retryable now c.base_url c.retry_delay
      outcomes hfail c.max_retries 0 (c.circuit_breaker.can_execute now).2
  refine ⟨h1, ?_, msg, h4⟩
  rw [h2]
  exact List.map_congr_left fun j _ => by rw [Nat.zero_add]

/-- C3 witness: a freshly constructed client (CLOSED breaker,
`max_retries = 3`, `retry_delay = 1`) whose every attempt hits a
connection failure makes 4 attempts with delays 1, 2, 4 and fails with
`ServiceUnavailableError`. -/
theorem claim_C3_retry_exhaustion_witness :
    ((ServiceHTTPClient.init
        "http://localhost:8000").circuit_breaker.can_execute 0).1 = true ∧
    (∀ i : Nat, retryableFailure ((fun _ => .connError) i)) ∧
    ((ServiceHTTPClient.make_request (ServiceHTTPClient.init
        "http://localhost:8000") 0 (fun _ => .connError)).attempts =
      (ServiceHTTPClient.init "http://localhost:8000").max_retries + 1 ∧
     (ServiceHTTPClient.make_request (ServiceHTTPClient.init
        "http://localhost:8000") 0 (fun _ => .connError)).delays =
      (List.range (ServiceHTTPClient.init
          "http://localhost:8000").max_retries).map
        (fun n => (ServiceHTTPClient.init
          "http://localhost:8000").retry_delay * 2 ^ n) ∧
     ∃ msg, (ServiceHTTPClient.make_request (ServiceHTTPClient.init
        "http://localhost:8000") 0 (fun _ => .connError)).result =
      .error (.serviceUnavailable msg)) :=
  ⟨rfl, fun _ => trivial,
   claim_C3_retry_exhaustion _ 0 _ rfl (fun _ => trivial)⟩

/-- C4: when the circuit breaker denies execution, the call fails
immediately with `ServiceUnavailableError`: zero network attempts are
made, no backoff sleep happens, nothing is reported to the breaker, and
the breaker is left exactly as it was. -/
theorem claim_C4_circuit_denied_fails_fast (c : ServiceHTTPClient)
    (now : Int) (outcomes : Nat → AttemptOutcome)
    (hdeny : (c.circuit_breaker.can_execute now).1 = false) :
    (c.make_request now outcomes).attempts = 0 ∧
    (c.make_request now outcomes).delays = [] ∧
    (c.make_request now outcomes).result =
      .error (.serviceUnavailable
        ("Service " ++ c.base_url ++ " is unavailable")) ∧
    (c.make_request now outcomes).successReports = 0 ∧
    (c.make_request now outcomes).failureReports = 0 ∧
    (c.make_request now outcomes).breaker = c.circuit_breaker := by
  unfold ServiceHTTPClient.make_request
  simp only [hdeny, Bool.false_eq_true, if_false]
  exact ⟨trivial, trivial, trivial, trivial, trivial,
    CircuitBreaker.can_execute_false_eq c.circuit_breaker now hdeny⟩

/-- C4 witness: a client whose breaker is OPEN after one failure at time
0 (threshold 1), queried at time 10 (before the 60-unit recovery
timeout), is denied and the call fails fast without touching anything. -/
theorem claim_C4_circuit_denied_fails_fast_witness :
    (({ base_url := "http://localhost:8000", timeout := 30, max_retries := 3
        retry_delay := 1
        circuit_breaker := CircuitBreaker.runOps (CircuitBreaker.init 1 60)
          [.failure 0] } : ServiceHTTPClient).circuit_breaker.can_execute
        10).1 = false ∧
    ((ServiceHTTPClient.make_request
        { base_url := "http://localhost:8000", timeout := 30, max_retries := 3
          retry_delay := 1
          circuit_breaker := CircuitBreaker.runOps (CircuitBreaker.init 1 60)
            [.failure 0] } 10 (fun _ => .connError)).attempts = 0 ∧
     (ServiceHTTPClient.make_request
        { base_url := "http://localhost:8000", timeout := 30, max_retries := 3
          retry_delay := 1
          circuit_breaker := CircuitBreaker.runOps (CircuitBreaker.init 1 60)
            [.failure 0] } 10 (fun _ => .connError)).delays = [] ∧
     (ServiceHTTPClient.make_request
        { base_url := "http://localhost:8000", timeout := 30, max_retries := 3
          retry_delay := 1
          circuit_breaker := CircuitBreaker.runOps (CircuitBreaker.init 1 60)
            [.failure 0] } 10 (fun _ => .connError)).result =
      .error (.serviceUnavailable
        ("Service " ++ "http://localhost:8000" ++ " is unavailable")) ∧
     (ServiceHTTPClient.make_request
        { base_url := "http://localhost:8000", timeout := 30, max_retries := 3
          retry_delay := 1
          circuit_breaker := CircuitBreaker.runOps (CircuitBreaker.init 1 60)
            [.failure 0] } 10 (fun _ => .connError)).successReports = 0 ∧
     (ServiceHTTPClient.make_request
        { base_url := "http://localhost:8000", timeout := 30, max_retries := 3
          retry_delay := 1
          circuit_breaker := CircuitBreaker.runOps (CircuitBreaker.init 1 60)
            [.failure 0] } 10 (fun _ => .connError)).failureReports = 0 ∧
     (ServiceHTTPClient.make_request
        { base_url := "http://localhost:8000", timeout := 30, max_retries := 3
          retry_delay := 1
          circuit_breaker := CircuitBreaker.runOps (CircuitBreaker.init 1 60)
            [.failure 0] } 10 (fun _ => .connError)).breaker =
      ({ base_url := "http://localhost:8000", timeout := 30, max_retries := 3
         retry_delay := 1
         circuit_breaker := CircuitBreaker.runOps (CircuitBreaker.init 1 60)
           [.failure 0] } : ServiceHTTPClient).circuit_breaker) :=
  ⟨rfl, claim_C4_circuit_denied_fails_fast _ 10 _ rfl⟩

/-- C5: when the breaker permits execution and the first attempt fails
with a 4xx-class response, exactly one attempt is made with no backoff
sleep, exactly one failure is reported to the breaker (its failure count
goes up by one), and the error surfaced to the caller carries the original
response's status and detail. -/
theorem claim_C5_client_error_no_retry (c : ServiceHTTPClient) (now : Int)
    (outcomes : Nat → AttemptOutcome) (status : Nat) (message : String)
    (hallow : (c.circuit_breaker.can_execute now).1 = true)
    (hfirst : outcomes 0 = .respError status message)
    (h4 : 400 ≤ status) (h5 : status < 500) :
    (c.make_request now outcomes).attempts = 1 ∧
    (c.make_request now outcomes).delays = [] ∧
    (c.make_request now outcomes).successReports = 0 ∧
    (c.make_request now outcomes).failureReports = 1 ∧
    (c.make_request now outcomes).breaker.failure_count =
      c.circuit_breaker.failure_count + 1 ∧
    (c.make_request now outcomes).result =
      .error (.clientResponseError status message) := by
  unfold ServiceHTTPClient.make_request
  simp only [hallow, if_true]
  unfold ServiceHTTPClient.requestLoop
  rw [hfirst]
  dsimp only
  rw [if_neg (by omega)]
  refine ⟨by trivial, by trivial, by trivial, by trivial, ?_, by trivial⟩
  rw [CircuitBreaker.on_failure_failure_count,
    CircuitBreaker.can_execute_failure_count]

/-- C5 witness: a freshly constructed client whose first attempt is a
404 with detail "Not Found" makes one attempt, reports one failure, and
surfaces the 404 with its detail. -/
theorem claim_C5_client_error_no_retry_witness :
    ((ServiceHTTPClient.init
        "http://localhost:8000").circuit_breaker.can_execute 0).1 = true ∧
    ((fun _ => .respError 404 "Not Found") 0 =
      AttemptOutcome.respError 404 "Not Found") ∧
    400 ≤ 404 ∧ 404 < 500 ∧
    ((ServiceHTTPClient.make_request (ServiceHTTPClient.init
        "http://localhost:8000") 0
        (fun _ => .respError 404 "Not Found")).attempts = 1 ∧
     (ServiceHTTPClient.make_request (ServiceHTTPClient.init
        "http://localhost:8000") 0
        (fun _ => .respError 404 "Not Found")).delays = [] ∧
     (ServiceHTTPClient.make_request (ServiceHTTPClient.init
        "http://localhost:8000") 0
        (fun _ => .respError 404 "Not Found")).successReports = 0 ∧
     (ServiceHTTPClient.make_request (ServiceHTTPClient.init
        "http://localhost:8000") 0
        (fun _ => .respError 404 "Not Found")).failureReports = 1 ∧
     (ServiceHTTPClient.make_request (ServiceHTTPClient.init
        "http://localhost:8000") 0
        (fun _ => .respError 404 "Not Found")).breaker.failure_count =
      (ServiceHTTPClient.init
        "http://localhost:8000").circuit_breaker.failure_count + 1 ∧
     (ServiceHTTPClient.make_request (ServiceHTTPClient.init
        "http://localhost:8000") 0
        (fun _ => .respError 404 "Not Found")).result =
      .error (.clientResponseError 404 "Not Found")) :=
  ⟨rfl, rfl, by decide, by decide,
   claim_C5_client_error_no_retry _ 0 _ 404 "Not Found" rfl rfl
     (by decide) (by decide)⟩

/-! ## Claim theorems: circuit breaker -/

/-- C1: For every (reachable) circuit breaker in state HALF_OPEN, a single
call to `on_failure()` increments `failure_count`, records
`last_failure_time`, and transitions the state to OPEN.  (In the source
the OPEN transition is guarded by `failure_count >= failure_threshold`,
but every reachable HALF_OPEN state already satisfies the guard, so the
transition always fires.) -/
theorem claim_C1_half_open_failure_reopens (cb : CircuitBreaker) (now : Int)
    (hreach : CircuitBreaker.Reachable cb) (hs : cb.state = .HALF_OPEN) :
    (cb.on_failure now).failure_count = cb.failure_count + 1 ∧
    (cb.on_failure now).last_failure_time = some now ∧
    (cb.on_failure now).state = .OPEN := by
  have hle : cb.failure_threshold ≤ cb.failure_count :=
    (CircuitBreaker.inv_reachable cb hreach (Or.inr hs)).1
  rw [CircuitBreaker.on_failure_eq_of_le cb now hle]
  exact ⟨rfl, rfl, rfl⟩

/-- C1 witness: the reachable breaker obtained from a fresh breaker with
threshold 1 and recovery 60 by one failure at time 0 and one
`can_execute` check at time 61 is HALF_OPEN, and a failure at time 100
re-opens it. -/
theorem claim_C1_half_open_failure_reopens_witness :
    CircuitBreaker.Reachable
      (CircuitBreaker.runOps (CircuitBreaker.init 1 60)
        [.failure 0, .check 61]) ∧
    (CircuitBreaker.runOps (CircuitBreaker.init 1 60)
        [.failure 0, .check 61]).state = .HALF_OPEN ∧
    (((CircuitBreaker.runOps (CircuitBreaker.init 1 60)
        [.failure 0, .check 61]).on_failure 100).failure_count =
      (CircuitBreaker.runOps (CircuitBreaker.init 1 60)
        [.failure 0, .check 61]).failure_count + 1 ∧
     ((CircuitBreaker.runOps (CircuitBreaker.init 1 60)
        [.failure 0, .check 61]).on_failure 100).last_failure_time = some 100 ∧
     ((CircuitBreaker.runOps (CircuitBreaker.init 1 60)
        [.failure 0, .check 61]).on_failure 100).state = .OPEN) :=
  ⟨⟨1, 60, [.failure 0, .check 61], rfl⟩, by decide,
   claim_C1_half_open_failure_reopens _ 100
     ⟨1, 60, [.failure 0, .check 61], rfl⟩ (by decide)⟩

/-- C8: every breaker state reachable from a fresh breaker by
`on_success`, `on_failure` and `can_execute` calls satisfies: state OPEN
implies `failure_count >= failure_threshold` and `last_failure_time` is
set. -/
theorem claim_C8_open_state_invariant (cb : CircuitBreaker)
    (hreach : CircuitBreaker.Reachable cb) (hs : cb.state = .OPEN) :
    cb.failure_threshold ≤ cb.failure_count ∧ cb.last_failure_time ≠ none :=
  CircuitBreaker.inv_reachable cb hreach (Or.inl hs)

/-- C8 witness: a fresh breaker with threshold 1 after one failure at
time 0 is OPEN, with the invariant holding there. -/
theorem claim_C8_open_state_invariant_witness :
    CircuitBreaker.Reachable
      (CircuitBreaker.runOps (CircuitBreaker.init 1 60) [.failure 0]) ∧
    (CircuitBreaker.runOps (CircuitBreaker.init 1 60) [.failure 0]).state
      = .OPEN ∧
    ((CircuitBreaker.runOps (CircuitBreaker.init 1 60)
        [.failure 0]).failure_threshold ≤
      (CircuitBreaker.runOps (CircuitBreaker.init 1 60)
        [.failure 0]).failure_count ∧
     (CircuitBreaker.runOps (CircuitBreaker.init 1 60)
        [.failure 0]).last_failure_time ≠ none) :=
  ⟨⟨1, 60, [.failure 0], rfl⟩, by decide,
   claim_C8_open_state_invariant _ ⟨1, 60, [.failure 0], rfl⟩ (by decide)⟩

/-- C2 counterexample: the claim says that after the elapsed-timeout
`can_execute()` call has returned true (transitioning to HALF_OPEN), no
further operation is permitted while the breaker remains HALF_OPEN until
`on_success`/`on_failure` resolves it.  On the code this is false: take a
fresh breaker with threshold 1 and recovery 60, fail it at time 0, and
let `can_execute` at time 61 flip it to HALF_OPEN (the single trial); a
second `can_execute` call at time 61 — with the breaker still HALF_OPEN
and no success or failure reported in between — returns true again,
permitting a further operation. -/
theorem claim_C2_counterexample :
    (CircuitBreaker.runOps (CircuitBreaker.init 1 60)
        [.failure 0, .check 61]).state = .HALF_OPEN ∧
    ((CircuitBreaker.runOps (CircuitBreaker.init 1 60)
        [.failure 0, .check 61]).can_execute 61).1 = true ∧
    ((CircuitBreaker.runOps (CircuitBreaker.init 1 60)
        [.failure 0, .check 61]).can_execute 61).2.state = .HALF_OPEN := by
  decide

/-- C2 (amended): for every breaker in state OPEN with `last_failure_time`
set, `can_execute()` returns false (without mutating the breaker) as long
as the elapsed time does not exceed `recovery_timeout`; once it exceeds
`recovery_timeout`, `can_execute()` returns true and transitions the
state to HALF_OPEN; and while a breaker is HALF_OPEN every `can_execute()`
call returns true without changing the state — the code does not restrict
HALF_OPEN to a single trial — until `on_success()` or `on_failure()`
resolves it. -/
theorem claim_C2_open_recovery_check (cb : CircuitBreaker) (t : Int)
    (hs : cb.state = .OPEN) (ht : cb.last_failure_time = some t) :
    (∀ now : Int, now - t ≤ (cb.recovery_timeout : Int) →
        cb.can_execute now = (false, cb)) ∧
    (∀ now : Int, (cb.recovery_timeout : Int) < now - t →
        cb.can_execute now = (true, { cb with state := .HALF_OPEN })) ∧
    (∀ cb2 : CircuitBreaker, cb2.state = .HALF_OPEN →
        ∀ now2 : Int, cb2.can_execute now2 = (true, cb2)) := by
  refine ⟨?_, ?_, ?_⟩
  · intro now h
    unfold CircuitBreaker.can_execute
    rw [hs, ht]
    dsimp only
    rw [if_neg (by omega)]
  · intro now h
    unfold CircuitBreaker.can_execute
    rw [hs, ht]
    dsimp only
    rw [if_pos (by omega)]
  · intro cb2 hs2 now2
    unfold CircuitBreaker.can_execute
    rw [hs2]

/-- C2 witness: a fresh breaker with threshold 1 and recovery 60 failed
once at time 0 is OPEN with `last_failure_time = 0`, and the amended
recovery-check behaviour holds for it. -/
theorem claim_C2_open_recovery_check_witness :
    (CircuitBreaker.runOps (CircuitBreaker.init 1 60) [.failure 0]).state
      = .OPEN ∧
    (CircuitBreaker.runOps (CircuitBreaker.init 1 60)
        [.failure 0]).last_failure_time = some 0 ∧
    ((∀ now : Int, now - 0 ≤
        ((CircuitBreaker.runOps (CircuitBreaker.init 1 60)
          [.failure 0]).recovery_timeout : Int) →
        (CircuitBreaker.runOps (CircuitBreaker.init 1 60)
          [.failure 0]).can_execute now =
          (false, CircuitBreaker.runOps (CircuitBreaker.init 1 60)
            [.failure 0])) ∧
     (∀ now : Int, ((CircuitBreaker.runOps (CircuitBreaker.init 1 60)
          [.failure 0]).recovery_timeout : Int) < now - 0 →
        (CircuitBreaker.runOps (CircuitBreaker.init 1 60)
          [.failure 0]).can_execute now =
          (true, { CircuitBreaker.runOps (CircuitBreaker.init 1 60)
            [.failure 0] with state := .HALF_OPEN })) ∧
     (∀ cb2 : CircuitBreaker, cb2.state = .HALF_OPEN →
        ∀ now2 : Int, cb2.can_execute now2 = (true, cb2))) :=
  ⟨by decide, by decide,
   claim_C2_open_recovery_check _ 0 (by decide) (by decide)⟩

/-- C6: `publish` invokes each handler subscribed to the event's
`event_type` exactly once, in subscription order (subscription appends to
the end of the type's list), whatever each handler returns or raises: an
error raised by a handler is caught, so every later handler in the list
still runs, and `publish` returns normally — no handler error reaches the
publisher. -/
theorem claim_C6_publish_fanout_isolated (h : EventHandler) (e : Event)
    (et : EventType) (hd : Handler) :
    (h.publish e).2 = (h.subscribers e.event_type).map Handler.id ∧
    (h.subscribe et hd).subscribers et = h.subscribers et ++ [hd] :=
  ⟨runHandlers_eq_map e (h.subscribers e.event_type),
   by simp [EventHandler.subscribe]⟩

/-- C7: with capacity 1000 (the dispatcher's `max_history`), the history
after publishing `1000 + k` events is exactly the last 1000 of them in
publication order: the oldest `k` are gone (for pairwise-distinct events,
absent from `get_event_history`), and after any sequence of publishes at
all the history never exceeds 1000. -/
theorem claim_C7_history_capacity (s : String) (events : List Event)
    (k : Nat) (hlen : events.length = 1000 + k) :
    ((EventHandler.init s).publishAll events).get_event_history =
      events.drop k ∧
    ((EventHandler.init s).publishAll events).get_event_history.length
      = 1000 ∧
    (∀ evs : List Event,
      ((EventHandler.init s).publishAll evs).get_event_history.length
        ≤ 1000) ∧
    (events.Nodup → ∀ e ∈ events.take k,
      e ∉ ((EventHandler.init s).publishAll events).get_event_history) := by
  have hform : ∀ evs : List Event,
      ((EventHandler.init s).publishAll evs).get_event_history =
        evs.drop (evs.length - 1000) := by
    intro evs
    show ((EventHandler.init s).publishAll evs).event_history = _
    rw [EventHandler.publishAll_history]
    show evs.foldl (pushHistory 1000) [] = _
    have h0 := foldl_pushHistory 1000 (by omega) evs [] (by simp)
    simpa using h0
  have hmain : ((EventHandler.init s).publishAll events).get_event_history =
      events.drop k := by
    rw [hform, hlen]
    have hk : 1000 + k - 1000 = k := by omega
    rw [hk]
  refine ⟨hmain, ?_, ?_, ?_⟩
  · rw [hmain, List.length_drop, hlen]
    omega
  · intro evs
    rw [hform, List.length_drop]
    omega
  · intro hnodup e he
    rw [hmain]
    exact List.disjoint_take_drop hnodup le_rfl he

/-- C7 witness: publishing 1001 pairwise distinct events into a fresh
dispatcher leaves exactly the last 1000 in order; the oldest one is
gone. -/
theorem claim_C7_history_capacity_witness :
    ((List.range 1001).map sampleEvent).length = 1000 + 1 ∧
    (((EventHandler.init "user").publishAll
        ((List.range 1001).map sampleEvent)).get_event_history =
      ((List.range 1001).map sampleEvent).drop 1 ∧
     ((EventHandler.init "user").publishAll
        ((List.range 1001).map sampleEvent)).get_event_history.length
      = 1000 ∧
     (∀ evs : List Event,
       ((EventHandler.init "user").publishAll evs).get_event_history.length
         ≤ 1000) ∧
     (((List.range 1001).map sampleEvent).Nodup →
       ∀ e ∈ ((List.range 1001).map sampleEvent).take 1,
         e ∉ ((EventHandler.init "user").publishAll
            ((List.range 1001).map sampleEvent)).get_event_history)) :=
  ⟨by simp, claim_C7_history_capacity "user" _ 1 (by simp)⟩

/-- C9: `get_client` on a registry built by any sequence of registrations
not mentioning a name fails with `NotRegistered` for that name — it never
returns a client and never auto-creates one — while `register_service`
followed by `get_client` with the same name, on any registry, returns the
client constructed from the registered URL (whose `base_url` is that URL
with trailing slashes stripped), the URL itself being stored alongside. -/
theorem claim_C9_registry_lookup (regs : List (String × String))
    (name base_url : String) (hnever : name ∉ regs.map Prod.fst) :
    (ServiceRegistry.ofRegistrations regs).get_client name =
      .error (.notRegistered name) ∧
    (∀ r : ServiceRegistry,
      (r.register_service name base_url).get_client name =
        .ok (ServiceHTTPClient.init base_url) ∧
      (ServiceHTTPClient.init base_url).base_url = rstripSlash base_url ∧
      (r.register_service name base_url).get_service_url name =
        .ok base_url) := by
  constructor
  · have hnone : (ServiceRegistry.ofRegistrations regs).clients name = none :=
      ServiceRegistry.foldl_clients_none regs name ServiceRegistry.init rfl
        hnever
    unfold ServiceRegistry.get_client
    rw [hnone]
  · intro r
    refine ⟨?_, rfl, ?_⟩
    · unfold ServiceRegistry.get_client ServiceRegistry.register_service
      dsimp only
      rw [if_pos rfl]
    · unfold ServiceRegistry.get_service_url ServiceRegistry.register_service
      dsimp only
      rw [if_pos rfl]

/-- C9 witness: in the registry of `register_services()` the name
"payments" was never registered, so `get_client` fails for it; and
registering "payments" then fetching it yields the freshly constructed
client for the registered URL. -/
theorem claim_C9_registry_lookup_witness :
    "payments" ∉ lmsRegistrations.map Prod.fst ∧
    ((ServiceRegistry.ofRegistrations lmsRegistrations).get_client
        "payments" = .error (.notRegistered "payments") ∧
     (∀ r : ServiceRegistry,
       (r.register_service "payments" "http://localhost:9000").get_client
           "payments" =
         .ok (ServiceHTTPClient.init "http://localhost:9000") ∧
       (ServiceHTTPClient.init "http://localhost:9000").base_url =
         rstripSlash "http://localhost:9000" ∧
       (r.register_service "payments"
           "http://localhost:9000").get_service_url "payments" =
         .ok "http://localhost:9000")) :=
  ⟨by decide, claim_C9_registry_lookup lmsRegistrations "payments"
    "http://localhost:9000" (by decide)⟩

/-- C10: `on_success()` from any breaker state sets the state to CLOSED
and `failure_count` to 0 and changes nothing else — in particular
`last_failure_time`, `failure_threshold` and `recovery_timeout` are
untouched, and a success reported while OPEN closes the breaker. -/
theorem claim_C10_on_success_closes (cb : CircuitBreaker) :
    cb.on_success.state = .CLOSED ∧
    cb.on_success.failure_count = 0 ∧
    cb.on_success.last_failure_time = cb.last_failure_time ∧
    cb.on_success.failure_threshold = cb.failure_threshold ∧
    cb.on_success.recovery_timeout = cb.recovery_timeout :=
  ⟨rfl, rfl, rfl, rfl, rfl⟩

end LMS
